import Mathlib

/-!
Verification of the conversational RAG chatbot pipeline.

The definitions below are a shallow embedding of the repository's Python
code: `src/rag_chain.py` (document curation, history formatting, prompt
template), `src/database.py` (conversation store operations),
`src/doc_loader.py` (documentation loading and splitting) and `app.py`
(the streaming answer generator and the history window).  Strings are
modelled as Lean `String` (operating on `String.data`, the character
list), machine integers as `Nat`, database rows as records, and the
SQLAlchemy session as explicit state passing.
-/

set_option maxRecDepth 100000

namespace Chatbot

/-- Model of Python substring search on character lists: `pat in l`. -/
def hasSubList (pat : List Char) : List Char → Bool
  | [] => pat.isPrefixOf []
  | c :: rest => pat.isPrefixOf (c :: rest) || hasSubList pat rest

/-- Model of Python `pat in s` substring containment. -/
def containsStr (s pat : String) : Bool :=
  hasSubList pat.data s.data

/-- Number of (possibly overlapping) occurrences of `pat` in a character list. -/
def countOccur (pat : List Char) : List Char → Nat
  | [] => 0
  | c :: rest => (if pat.isPrefixOf (c :: rest) then 1 else 0) + countOccur pat rest

/-- Model of Python `str.strip()`: drop whitespace from both ends. -/
def stripChars (l : List Char) : List Char :=
  ((l.dropWhile Char.isWhitespace).reverse.dropWhile Char.isWhitespace).reverse

/-- Model of Python `str.strip()` on `String`. -/
def stripStr (s : String) : String :=
  ⟨stripChars s.data⟩

/-- Model of Python `s[:n]` on strings. -/
def takeStr (n : Nat) (s : String) : String :=
  ⟨s.data.take n⟩

/-- Model of Python `str.upper()` (ASCII uppercasing). -/
def upperStr (s : String) : String :=
  ⟨s.data.map Char.toUpper⟩

/-- Model of Python `content.split('\n')` on character lists. -/
def splitOnNl : List Char → List (List Char)
  | [] => [[]]
  | c :: rest =>
    if c = '\n' then [] :: splitOnNl rest
    else
      match splitOnNl rest with
      | [] => [[c]]
      | l :: ls => (c :: l) :: ls

/-- Model of Python `sep.join(parts)`. -/
def joinSep (sep : String) : List String → String
  | [] => ""
  | [x] => x
  | x :: y :: rest => x ++ sep ++ joinSep sep (y :: rest)

/-- A retrieved document: `metadata.get('source_framework')`,
`metadata.get('source_url')` and `page_content` (`rag_chain.py`,
`doc_loader.py`). -/
structure Doc where
  source_framework : Option String
  source_url : Option String
  page_content : String
deriving DecidableEq

/-- The quality filter extracted from the three `continue` checks of
`format_docs` (`src/rag_chain.py` lines 79-85): discard when the content
contains `'Redirecting'`, or its stripped length is below 100, or it
contains `'Skip to main content'` while the raw length is below 200. -/
def classify (content : String) : Bool :=
  containsStr content "Redirecting"
  || decide ((stripStr content).length < 100)
  || (containsStr content "Skip to main content" && decide (content.length < 200))

/-- The navigation-like lines dropped by `format_docs` (`src/rag_chain.py`
line 93), including the empty line. -/
def boilerplateLines : List String :=
  ["", "Docs", "Search", "Home", "API Reference", "Tutorials"]

/-- The content clean-up of `format_docs` (`src/rag_chain.py` lines 88-97):
split on newlines, strip each line, drop boilerplate lines, join with
single spaces. -/
def cleanContent (content : String) : String :=
  joinSep " "
    (((splitOnNl content.data).map (fun l => stripStr ⟨l⟩)).filter
      (fun l => !(boilerplateLines.contains l)))

/-- The label attached to a kept passage (`src/rag_chain.py` line 100):
`[Document {n} - {SOURCE}]\n{clean_content}\n`. -/
def labelStr (n : Nat) (source clean : String) : String :=
  "[Document " ++ toString n ++ " - " ++ upperStr source ++ "]\n" ++ clean ++ "\n"

/-- The loop body of `format_docs` (`src/rag_chain.py` lines 74-104): `acc`
is the `formatted` accumulator; a passage failing the quality filter is
skipped; a kept passage is appended when its cleaned content is longer
than 50 characters; the loop breaks once `formatted` reaches 5 entries. -/
def format_docs_go : List Doc → List String → List String
  | [], acc => acc
  | d :: rest, acc =>
    if classify d.page_content then format_docs_go rest acc
    else
      let clean := cleanContent d.page_content
      let acc2 :=
        if clean.length > 50 then
          acc ++ [labelStr (acc.length + 1) (d.source_framework.getD "unknown") clean]
        else acc
      if acc2.length ≥ 5 then acc2 else format_docs_go rest acc2

/-- The sentinel returned by `format_docs` when no passage survives
(`src/rag_chain.py` line 106). -/
def noDocsSentinel : String :=
  "No relevant documentation found in the knowledge base."

/-- `format_docs` (`src/rag_chain.py` lines 63-106): run the curation loop
and either join the kept labelled passages with `\n---\n` or return the
sentinel. -/
def format_docs (docs : List Doc) : String :=
  let f := format_docs_go docs []
  if f.isEmpty then noDocsSentinel else joinSep "\n---\n" f

/-- `format_chat_history` (`src/rag_chain.py` lines 109-127): empty history
yields the sentinel, otherwise alternating `User:` / `Assistant:` lines
joined by newlines. -/
def format_chat_history (history : List (String × String)) : String :=
  if history.isEmpty then "No previous conversation."
  else joinSep "\n" (history.flatMap (fun p => ["User: " ++ p.1, "Assistant: " ++ p.2]))

/-- The history window of the app (`app.py` line 280): only the last three
turns (`history[-3:]`) are passed to `format_chat_history`. -/
def history_window (history : List (String × String)) : String :=
  format_chat_history (history.drop (history.length - 3))

/-- The streaming generator `stream_response` (`app.py` lines 275-292).
The underlying model stream yields `chunks` and then either finishes
normally (`err = none`) or raises an exception with message `e`
(`err = some e`); the `except` clause of the source yields
`"Error: " ++ e` as one more fragment of the same stream.  The returned
list is the sequence of fragments the consumer sees. -/
def stream_response (chunks : List String) (err : Option String) : List String :=
  match err with
  | none => chunks
  | some e => chunks ++ ["Error: " ++ e]

/-- A `conversations` row (`src/database.py` lines 48-66), timestamps as
naturals. -/
structure Conv where
  id : Nat
  user_id : Nat
  title : String
  created_at : Nat
  updated_at : Nat
deriving DecidableEq

/-- A `chat_messages` row (`src/database.py` lines 69-83). -/
structure Msg where
  id : Nat
  conversation_id : Nat
  role : String
  content : String
  created_at : Nat
deriving DecidableEq

/-- The database state plus a model clock: `now` stands for the value of
`datetime.utcnow()` during the call, `next_msg_id` for the autoincrement
counter of `chat_messages.id`. -/
structure DB where
  convs : List Conv
  msgs : List Msg
  next_msg_id : Nat
  now : Nat
deriving DecidableEq

/-- `add_message` (`src/database.py` lines 166-188): insert the message
row; while the conversation title is still the `"New Chat"` sentinel and
the role is `"user"`, set the title to the first 50 characters of the
content, with `"..."` appended when the content is longer than 50;
stamp `updated_at`.  When no conversation with this id exists the Python
code raises (`conv.updated_at` on `None`) and rolls back: modelled as
`none`.  Returns the new state and the new message id. -/
def add_message (db : DB) (conversation_id : Nat) (role content : String) :
    Option (DB × Nat) :=
  match db.convs.find? (fun c => c.id == conversation_id) with
  | none => none
  | some conv =>
    let title :=
      if conv.title == "New Chat" && role == "user" then
        if content.length > 50 then takeStr 50 content ++ "..." else content
      else conv.title
    some
      ({ db with
          msgs := db.msgs ++ [⟨db.next_msg_id, conversation_id, role, content, db.now⟩],
          convs := db.convs.map (fun c =>
            if c.id == conversation_id then { c with title := title, updated_at := db.now }
            else c),
          next_msg_id := db.next_msg_id + 1 },
        db.next_msg_id)

/-- `delete_conversation` (`src/database.py` lines 191-212): delete all
messages of the conversation, then the conversation row.  No owner is
passed and no ownership or existence check is performed. -/
def delete_conversation (db : DB) (conversation_id : Nat) : DB :=
  { db with
      msgs := db.msgs.filter (fun m => !(m.conversation_id == conversation_id)),
      convs := db.convs.filter (fun c => !(c.id == conversation_id)) }

/-- Insertion into a list sorted by `updated_at` descending. -/
def insertDescByUpdated (c : Conv) : List Conv → List Conv
  | [] => [c]
  | d :: rest =>
    if c.updated_at ≤ d.updated_at then d :: insertDescByUpdated c rest else c :: d :: rest

/-- Model of the SQL `ORDER BY updated_at DESC` used by
`get_user_conversations`. -/
def sortDescByUpdated : List Conv → List Conv
  | [] => []
  | c :: rest => insertDescByUpdated c (sortDescByUpdated rest)

/-- `get_user_conversations` (`src/database.py` lines 139-150): the
caller's own conversations, most recently updated first, bounded by
`limit`. -/
def get_user_conversations (db : DB) (user_id limit : Nat) : List Conv :=
  (sortDescByUpdated (db.convs.filter (fun c => c.user_id == user_id))).take limit

/-- `load_documents_from_urls` (`src/doc_loader.py` lines 131-166).
`fetch` stands for `WebBaseLoader(url).load()`: `none` when the load
raises (the `except` branch only prints and moves on), otherwise the
loaded documents.  Each loaded batch is tagged with source metadata and
then appended to the accumulator twice (`all_docs.extend(docs)` appears
on two consecutive lines, 158-159). -/
def load_documents_from_urls (fetch : String → Option (List Doc)) (urls : List String)
    (source_name : String) : List Doc :=
  urls.foldl
    (fun all url =>
      match fetch url with
      | none => all
      | some docs =>
        let tagged := docs.map (fun d =>
          { d with source_framework := some source_name, source_url := some url })
        all ++ tagged ++ tagged)
    []

/-- Modelled from the spec: the loader with each successfully loaded batch
appended exactly once, the behaviour the spec expects of a
non-duplicating loader; defined only to compare with
`load_documents_from_urls`. -/
def load_documents_once (fetch : String → Option (List Doc)) (urls : List String)
    (source_name : String) : List Doc :=
  urls.foldl
    (fun all url =>
      match fetch url with
      | none => all
      | some docs =>
        all ++ docs.map (fun d =>
          { d with source_framework := some source_name, source_url := some url }))
    []

/-- The tagged batch a single url contributes to the loader's accumulator:
empty when the load raises, otherwise the loaded documents with source
metadata attached (`src/doc_loader.py` lines 147-159). -/
def loadContrib (fetch : String → Option (List Doc)) (source_name url : String) : List Doc :=
  match fetch url with
  | none => []
  | some docs =>
    docs.map (fun d => { d with source_framework := some source_name, source_url := some url })

/-- `split_documents` (`src/doc_loader.py` lines 169-202): `splitter`
stands for `RecursiveCharacterTextSplitter(...).split_documents`, a
deterministic function of its input; the source calls it twice on the
same input and the second assignment overwrites the first. -/
def split_documents (splitter : List Doc → List Doc) (documents : List Doc) : List Doc :=
  let chunks := splitter documents
  let chunks := splitter documents
  chunks

/-- `RAG_PROMPT_TEMPLATE` (`src/rag_chain.py` lines 33-60), verbatim. -/
def RAG_PROMPT_TEMPLATE : String :=
  "You are an expert assistant specialized in LangChain, LangGraph, and LangSmith frameworks.\n\nYour job is to help developers understand and use these frameworks effectively.\n\nINSTRUCTIONS:\n1. First, try to answer based on the provided context from documentation\n2. If the context is relevant, use it to provide a detailed answer with code examples\n3. If the context doesn\x27t directly answer the question but is related, use your knowledge of LangChain/LangGraph/LangSmith to help\n4. Include code examples when relevant\n5. Mention which framework (LangChain, LangGraph, or LangSmith) the answer relates to\n\nCONTEXT FROM DOCUMENTATION:\n{context}\n\n\nCHAT HISTORY (Previous context - IGNORE if unrelated to new question):\n{chat_history}\n\nLATEST USER QUESTION (Focus your answer here):\n{question}\n\n    Provide a comprehensive, beginner-friendly explanation.\n    - Break down complex concepts into simple terms.\n    - Uses analogies if helpful.\n    - Provide a detailed answer that teaches    - The user wants a detailed, comprehensive answer.\n    - If the \"Context\" is just a code snippet (like a specific function), you MUST first define the general concept using your own knowledge, then explain how the code relates to it.\n    - If the answer is completely missing from the context and you cannot infer it, say \"I don\x27t have information about that in my specific documentation, but generally speaking...\" and provide a helpful answer based on your training.\n    - Do NOT hallucinate specific library features that don\x27t exist. Use your general knowledge only if you are 100% sure."

/-- The template text before the `{context}` placeholder: the system
instructions slot. -/
def promptPre : String :=
  "You are an expert assistant specialized in LangChain, LangGraph, and LangSmith frameworks.\n\nYour job is to help developers understand and use these frameworks effectively.\n\nINSTRUCTIONS:\n1. First, try to answer based on the provided context from documentation\n2. If the context is relevant, use it to provide a detailed answer with code examples\n3. If the context doesn\x27t directly answer the question but is related, use your knowledge of LangChain/LangGraph/LangSmith to help\n4. Include code examples when relevant\n5. Mention which framework (LangChain, LangGraph, or LangSmith) the answer relates to\n\nCONTEXT FROM DOCUMENTATION:\n"

/-- The template text between `{context}` and `{chat_history}`. -/
def promptMid1 : String :=
  "\n\n\nCHAT HISTORY (Previous context - IGNORE if unrelated to new question):\n"

/-- The template text between `{chat_history}` and `{question}`. -/
def promptMid2 : String :=
  "\n\nLATEST USER QUESTION (Focus your answer here):\n"

/-- The template text after the `{question}` placeholder. -/
def promptPost : String :=
  "\n\n    Provide a comprehensive, beginner-friendly explanation.\n    - Break down complex concepts into simple terms.\n    - Uses analogies if helpful.\n    - Provide a detailed answer that teaches    - The user wants a detailed, comprehensive answer.\n    - If the \"Context\" is just a code snippet (like a specific function), you MUST first define the general concept using your own knowledge, then explain how the code relates to it.\n    - If the answer is completely missing from the context and you cannot infer it, say \"I don\x27t have information about that in my specific documentation, but generally speaking...\" and provide a helpful answer based on your training.\n    - Do NOT hallucinate specific library features that don\x27t exist. Use your general knowledge only if you are 100% sure."

/-- The prompt assembly (`src/rag_chain.py` lines 157 and 196-205):
`ChatPromptTemplate.from_template(RAG_PROMPT_TEMPLATE)` invoked by the
chain substitutes the `context`, `chat_history` and `question` values
into their placeholders in a single pass (substituted values are not
re-scanned); `c8_prompt_template` proves the parts used here
reconstitute the source template exactly. -/
def assemble (context chat_history question : String) : String :=
  promptPre ++ context ++ promptMid1 ++ chat_history ++ promptMid2 ++ question ++ promptPost

/-- Concrete passage content for claim C4: contains one navigation marker,
raw length 150 (below 200) and stripped length 150 (at least 100). -/
def cFourContent : String :=
  "Skip to main contentaaaaaaaaaaaaaaaaaaaaaaaaaaaaaaaaaaaaaaaaaaaaaaaaaaaaaaaaaaaaaaaaaaaaaaaaaaaaaaaaaaaaaaaaaaaaaaaaaaaaaaaaaaaaaaaaaaaaaaaaaaaaaaaaaa"

/-- Concrete passage for claim C6: passes the quality filter (stripped
length 115), and its cleaned content (boilerplate `Docs` lines dropped)
is exactly 50 characters long. -/
def dC6 : Doc :=
  ⟨some "langchain", none,
    "xxxxxxxxxxxxxxxxxxxxxxxxxxxxxxxxxxxxxxxxxxxxxxxxxx\nDocs\nDocs\nDocs\nDocs\nDocs\nDocs\nDocs\nDocs\nDocs\nDocs\nDocs\nDocs\nDocs"⟩

/-- Concrete passage content for the claim C6 witness: passes the quality
filter and cleans to 120 characters. -/
def cSixKeepContent : String :=
  "aaaaaaaaaaaaaaaaaaaaaaaaaaaaaaaaaaaaaaaaaaaaaaaaaaaaaaaaaaaaaaaaaaaaaaaaaaaaaaaaaaaaaaaaaaaaaaaaaaaaaaaaaaaaaaaaaaaaaa"

/-! ## Helper lemmas -/

/-- A string with a length other than zero is not the empty string. -/
theorem string_eq_empty_of_length {s : String} (h : s.length = 0) : s = "" := by
  cases s with
  | mk d =>
    cases d with
    | nil => rfl
    | cons c cs => simp [String.length] at h

/-- A passage label is never the empty string. -/
theorem labelStr_ne_empty (n : Nat) (src clean : String) : labelStr n src clean ≠ "" := by
  intro he
  have h := congrArg String.length he
  simp only [labelStr, String.length_append] at h
  have h10 : ("[Document " : String).length = 10 := rfl
  have h0 : ("" : String).length = 0 := rfl
  rw [h10, h0] at h
  omega

/-- Joining a list whose first element is nonempty yields a nonempty string. -/
theorem joinSep_ne_empty (sep x : String) (xs : List String) (hx : x ≠ "") :
    joinSep sep (x :: xs) ≠ "" := by
  cases xs with
  | nil => simpa [joinSep] using hx
  | cons y rest =>
    simp only [joinSep]
    intro he
    have h := congrArg String.length he
    simp only [String.length_append] at h
    have h0 : ("" : String).length = 0 := rfl
    rw [h0] at h
    exact hx (string_eq_empty_of_length (by omega))

/-- `String.join` distributes over appending one final fragment. -/
theorem join_append_one (l : List String) (x : String) :
    String.join (l ++ [x]) = String.join l ++ x := by
  show List.foldl (fun r s => r ++ s) "" (l ++ [x]) = List.foldl (fun r s => r ++ s) "" l ++ x
  rw [List.foldl_append]
  rfl

/-- The curation loop never grows the accumulator past five entries. -/
theorem format_docs_go_length_le (docs : List Doc) : ∀ acc : List String, acc.length < 5 →
    (format_docs_go docs acc).length ≤ 5 := by
  induction docs with
  | nil => intro acc h; simpa [format_docs_go] using Nat.le_of_lt h
  | cons d rest ih =>
    intro acc h
    simp only [format_docs_go]
    split
    · exact ih acc h
    · by_cases hc : (cleanContent d.page_content).length > 50
      · simp only [if_pos hc]
        split
        · simp only [List.length_append, List.length_cons, List.length_nil]; omega
        · rename_i h5
          refine ih _ ?_
          simp only [List.length_append, List.length_cons, List.length_nil] at h5 ⊢
          omega
      · simp only [if_neg hc]
        split
        · omega
        · exact ih acc h

/-- The curation loop only ever appends to its accumulator. -/
theorem format_docs_go_prefix (docs : List Doc) : ∀ acc,
    ∃ ext, format_docs_go docs acc = acc ++ ext := by
  induction docs with
  | nil => intro acc; exact ⟨[], by simp [format_docs_go]⟩
  | cons d rest ih =>
    intro acc
    simp only [format_docs_go]
    split
    · exact ih acc
    · by_cases hc : (cleanContent d.page_content).length > 50
      · simp only [if_pos hc]
        split
        · exact ⟨_, rfl⟩
        · obtain ⟨ext, hext⟩ := ih (acc ++
            [labelStr (acc.length + 1) (d.source_framework.getD "unknown")
              (cleanContent d.page_content)])
          exact ⟨_, by rw [hext, List.append_assoc]⟩
      · simp only [if_neg hc]
        split
        · exact ⟨[], by simp⟩
        · exact ih acc

/-- The curation loop never puts an empty string into its accumulator. -/
theorem format_docs_go_ne_empty (docs : List Doc) : ∀ acc, (∀ s ∈ acc, s ≠ "") →
    ∀ s ∈ format_docs_go docs acc, s ≠ "" := by
  induction docs with
  | nil => intro acc h; simpa [format_docs_go] using h
  | cons d rest ih =>
    intro acc h
    simp only [format_docs_go]
    split
    · exact ih acc h
    · have hacc2 : ∀ s ∈ acc ++
          [labelStr (acc.length + 1) (d.source_framework.getD "unknown")
            (cleanContent d.page_content)], s ≠ "" := by
        intro s hs
        rcases List.mem_append.mp hs with hs | hs
        · exact h s hs
        · rcases List.mem_singleton.mp hs with rfl
          exact labelStr_ne_empty _ _ _
      by_cases hc : (cleanContent d.page_content).length > 50
      · simp only [if_pos hc]
        split
        · exact hacc2
        · exact ih _ hacc2
      · simp only [if_neg hc]
        split
        · exact h
        · exact ih acc h

/-- `List.find?` over the per-conversation update performed by
`add_message`: updating every row with the matching id maps the found
row through the update. -/
theorem find?_map_update (l : List Conv) (cid : Nat) (f : Conv → Conv)
    (hf : ∀ c, (f c).id = c.id) (conv : Conv)
    (h : l.find? (fun c => c.id == cid) = some conv) :
    (l.map (fun c => if c.id == cid then f c else c)).find? (fun c => c.id == cid) =
      some (f conv) := by
  induction l with
  | nil => simp [List.find?] at h
  | cons a rest ih =>
    by_cases ha : a.id = cid
    · have hfa : (f a).id = cid := by rw [hf]; exact ha
      simp only [List.find?, ha, hfa, List.map_cons, beq_self_eq_true, if_true] at h ⊢
      injection h with h
      rw [← h]
    · have hb : (a.id == cid) = false := by simpa using ha
      simp only [List.find?, List.map_cons, hb, Bool.false_eq_true, if_false] at h ⊢
      exact ih h

/-- Rows with a different id are untouched by the per-conversation update
of `add_message`. -/
theorem filter_map_update (l : List Conv) (cid : Nat) (f : Conv → Conv)
    (hf : ∀ c, (f c).id = c.id) :
    (l.map (fun c => if c.id == cid then f c else c)).filter (fun c => !(c.id == cid)) =
      l.filter (fun c => !(c.id == cid)) := by
  induction l with
  | nil => rfl
  | cons a rest ih =>
    by_cases ha : a.id = cid
    · have hfa : (f a).id = cid := by rw [hf]; exact ha
      simp only [List.map_cons, List.filter_cons]
      simp [ha, hfa]
      simpa using ih
    · simp only [List.map_cons, List.filter_cons]
      simp [ha]
      simpa using ih

/-- The per-conversation update of `add_message` preserves the list of
conversation ids. -/
theorem map_ids_update (l : List Conv) (cid : Nat) (f : Conv → Conv)
    (hf : ∀ c, (f c).id = c.id) :
    (l.map (fun c => if c.id == cid then f c else c)).map (fun c => c.id) =
      l.map (fun c => c.id) := by
  induction l with
  | nil => rfl
  | cons a rest ih =>
    simp only [List.map_cons]
    by_cases ha : a.id = cid
    · simp only [if_pos (show ((a.id == cid) = true) by simpa using ha), hf, ih]
    · simp only [if_neg (show ¬((a.id == cid) = true) by simpa using ha), ih]

/-- Members of the descending insertion are the inserted element or old
members. -/
theorem mem_insertDescByUpdated {x c : Conv} {l : List Conv}
    (h : x ∈ insertDescByUpdated c l) : x = c ∨ x ∈ l := by
  induction l with
  | nil => simpa [insertDescByUpdated] using h
  | cons d rest ih =>
    simp only [insertDescByUpdated] at h
    split at h
    · rcases List.mem_cons.mp h with h | h
      · exact Or.inr (List.mem_cons.mpr (Or.inl h))
      · rcases ih h with h | h
        · exact Or.inl h
        · exact Or.inr (List.mem_cons.mpr (Or.inr h))
    · rcases List.mem_cons.mp h with h | h
      · exact Or.inl h
      · exact Or.inr h

/-- Sorting by `updated_at` descending does not invent rows. -/
theorem mem_sortDescByUpdated {x : Conv} {l : List Conv}
    (h : x ∈ sortDescByUpdated l) : x ∈ l := by
  induction l with
  | nil => simpa [sortDescByUpdated] using h
  | cons c rest ih =>
    simp only [sortDescByUpdated] at h
    rcases mem_insertDescByUpdated h with h | h
    · exact h ▸ List.mem_cons_self c rest
    · exact List.mem_cons.mpr (Or.inr (ih h))

/-- Every conversation returned by `get_user_conversations` belongs to the
requesting user. -/
theorem get_user_conversations_owned (db : DB) (uid limit : Nat) :
    ∀ c ∈ get_user_conversations db uid limit, c.user_id = uid := by
  intro c hc
  have h1 : c ∈ sortDescByUpdated (db.convs.filter (fun c => c.user_id == uid)) :=
    List.take_subset _ _ hc
  have h3 := List.of_mem_filter (mem_sortDescByUpdated h1)
  simpa using h3

/-- Unfolding of `add_message` on a state whose conversation lookup
succeeds. -/
theorem add_message_some (db : DB) (cid : Nat) (role content : String) (conv : Conv)
    (hfind : db.convs.find? (fun c => c.id == cid) = some conv) :
    add_message db cid role content =
      some ({ db with
          msgs := db.msgs ++ [⟨db.next_msg_id, cid, role, content, db.now⟩],
          convs := db.convs.map (fun c =>
            if c.id == cid then
              { c with
                title :=
                  if conv.title == "New Chat" && role == "user" then
                    if content.length > 50 then takeStr 50 content ++ "..." else content
                  else conv.title,
                updated_at := db.now }
            else c),
          next_msg_id := db.next_msg_id + 1 },
        db.next_msg_id) := by
  simp only [add_message, hfind]

/-- The loader written as one tagged contribution per url, appended
twice. -/
theorem load_documents_from_urls_eq (fetch : String → Option (List Doc)) (source_name : String) :
    ∀ (urls : List String) (init : List Doc),
      urls.foldl
        (fun all url =>
          match fetch url with
          | none => all
          | some docs =>
            let tagged := docs.map (fun d =>
              { d with source_framework := some source_name, source_url := some url })
            all ++ tagged ++ tagged)
        init
      = init ++ urls.flatMap
          (fun url => loadContrib fetch source_name url ++ loadContrib fetch source_name url) := by
  intro urls
  induction urls with
  | nil => intro init; simp
  | cons u us ih =>
    intro init
    simp only [List.foldl_cons, List.flatMap_cons]
    rw [ih]
    cases hf : fetch u with
    | none => simp [loadContrib, hf]
    | some docs => simp [loadContrib, hf, List.append_assoc]

/-- The spec-expected loader written as one tagged contribution per url,
appended once. -/
theorem load_documents_once_eq (fetch : String → Option (List Doc)) (source_name : String) :
    ∀ (urls : List String) (init : List Doc),
      urls.foldl
        (fun all url =>
          match fetch url with
          | none => all
          | some docs =>
            all ++ docs.map (fun d =>
              { d with source_framework := some source_name, source_url := some url }))
        init
      = init ++ urls.flatMap (fun url => loadContrib fetch source_name url) := by
  intro urls
  induction urls with
  | nil => intro init; simp
  | cons u us ih =>
    intro init
    simp only [List.foldl_cons, List.flatMap_cons]
    rw [ih]
    cases hf : fetch u with
    | none => simp [loadContrib, hf]
    | some docs => simp [loadContrib, hf, List.append_assoc]

/-- Counting over a per-url doubled contribution doubles the count. -/
theorem count_flatMap_double (g : String → List Doc) (urls : List String) (d : Doc) :
    List.count d (urls.flatMap (fun u => g u ++ g u)) = 2 * List.count d (urls.flatMap g) := by
  induction urls with
  | nil => rfl
  | cons u us ih =>
    simp only [List.flatMap_cons, List.count_append, ih]
    ring

/-! ## Claim theorems -/

/-- Claim C1, counterexample.  The claim states that no error text is ever
yielded as a content fragment of the stream.  But when the model call
raises with message `"rate limit"` after one fragment has been yielded,
`stream_response` yields `"Error: rate limit"` as an ordinary content
fragment of the same stream, indistinguishable from model output. -/
theorem c1_counterexample :
    stream_response ["The answer is"] (some "rate limit") =
      ["The answer is", "Error: rate limit"]
    ∧ "Error: rate limit" ∈ stream_response ["The answer is"] (some "rate limit") :=
  ⟨rfl, by decide⟩

/-- Claim C1, amended: for every generation stream in which the underlying
model call raises after zero or more fragments have been yielded,
`stream_response` does not silently terminate the stream, but it signals
the failure by yielding one additional ordinary content fragment
`"Error: " ++ reason` — the error text is spliced into the content
stream (and hence into the accumulated answer) rather than signalled
distinctly; a stream without failure yields exactly the model
fragments. -/
theorem c1_failure_spliced (chunks : List String) (e : String) :
    stream_response chunks (some e) = chunks ++ ["Error: " ++ e]
    ∧ stream_response chunks none = chunks
    ∧ String.join (stream_response chunks (some e)) = String.join chunks ++ ("Error: " ++ e) :=
  ⟨rfl, rfl, join_append_one chunks ("Error: " ++ e)⟩

/-- Claim C2, counterexample.  Conversation 1 belongs to user 7; a deletion
of conversation 1 issued on behalf of any other caller (the store
function takes no owner argument and performs no ownership validation)
removes the conversation and its messages — a side effect occurs instead
of a rejection. -/
theorem c2_counterexample :
    (delete_conversation ⟨[⟨1, 7, "Owned by user 7", 0, 5⟩], [⟨1, 1, "user", "hi", 3⟩], 2, 9⟩
        1).convs = []
    ∧ (delete_conversation ⟨[⟨1, 7, "Owned by user 7", 0, 5⟩], [⟨1, 1, "user", "hi", 3⟩], 2, 9⟩
        1).msgs = []
    ∧ (7 : Nat) ≠ 2 :=
  ⟨rfl, rfl, by decide⟩

/-- Claim C2, amended: the store operations themselves perform no ownership
validation — `delete_conversation` takes no owner and unconditionally
deletes any existing conversation (and every message of it), so a
conversation id not owned by the caller is not rejected; the only
owner-related filtering in the pipeline is that `get_user_conversations`
returns exclusively conversations whose `user_id` equals the requesting
owner, so the UI only ever offers the caller their own ids. -/
theorem c2_no_ownership_validation (db : DB) (cid uid limit : Nat) (c conv : Conv)
    (hc : c ∈ get_user_conversations db uid limit)
    (hconv : conv ∈ db.convs) (hid : conv.id = cid) :
    c.user_id = uid
    ∧ conv ∉ (delete_conversation db cid).convs
    ∧ (∀ m ∈ (delete_conversation db cid).msgs, m.conversation_id ≠ cid) := by
  refine ⟨get_user_conversations_owned db uid limit c hc, ?_, ?_⟩
  · intro hmem
    have h := List.of_mem_filter hmem
    simp [hid] at h
  · intro m hm
    have h := List.of_mem_filter hm
    simpa using h

/-- Witness for claim C2 at a concrete store state. -/
theorem c2_witness :
    ((⟨1, 7, "Title", 0, 5⟩ : Conv) ∈
        get_user_conversations ⟨[⟨1, 7, "Title", 0, 5⟩], [], 1, 0⟩ 7 20
      ∧ (⟨1, 7, "Title", 0, 5⟩ : Conv) ∈ DB.convs ⟨[⟨1, 7, "Title", 0, 5⟩], [], 1, 0⟩
      ∧ (⟨1, 7, "Title", 0, 5⟩ : Conv).id = 1)
    ∧ ((⟨1, 7, "Title", 0, 5⟩ : Conv).user_id = 7
      ∧ (⟨1, 7, "Title", 0, 5⟩ : Conv) ∉
          (delete_conversation ⟨[⟨1, 7, "Title", 0, 5⟩], [], 1, 0⟩ 1).convs
      ∧ (∀ m ∈ (delete_conversation ⟨[⟨1, 7, "Title", 0, 5⟩], [], 1, 0⟩ 1).msgs,
          m.conversation_id ≠ 1)) :=
  ⟨⟨by decide, by decide, rfl⟩,
    c2_no_ownership_validation ⟨[⟨1, 7, "Title", 0, 5⟩], [], 1, 0⟩ 1 7 20 _ _
      (by decide) (by decide) rfl⟩

/-- Claim C3 (confirmed): the history window keeps only the last three
turns — any earlier turns `old` are dropped entirely and the last three
are formatted as alternating `User:` / `Assistant:` lines in
chronological order; a history of at most three turns is passed through
whole; an empty history yields the fixed `"No previous conversation."`
sentinel. -/
theorem c3_history_window (old hist : List (String × String)) (u1 a1 u2 a2 u3 a3 : String)
    (hlen : hist.length ≤ 3) :
    history_window (old ++ [(u1, a1), (u2, a2), (u3, a3)]) =
      joinSep "\n" ["User: " ++ u1, "Assistant: " ++ a1, "User: " ++ u2, "Assistant: " ++ a2,
        "User: " ++ u3, "Assistant: " ++ a3]
    ∧ history_window hist = format_chat_history hist
    ∧ history_window ([] : List (String × String)) = "No previous conversation." := by
  refine ⟨?_, ?_, rfl⟩
  · have h3 : ([(u1, a1), (u2, a2), (u3, a3)] : List (String × String)).length = 3 := rfl
    have hdrop : (old ++ [(u1, a1), (u2, a2), (u3, a3)]).drop
        ((old ++ [(u1, a1), (u2, a2), (u3, a3)]).length - 3) = [(u1, a1), (u2, a2), (u3, a3)] := by
      rw [List.length_append, h3, Nat.add_sub_cancel]
      exact List.drop_left old _
    rw [history_window, hdrop]
    rfl
  · rw [history_window, Nat.sub_eq_zero_of_le hlen, List.drop_zero]

/-- Witness for claim C3 at a concrete four-turn history. -/
theorem c3_witness :
    ([("q4", "r4")] : List (String × String)).length ≤ 3
    ∧ (history_window ([("q0", "r0")] ++ [("q1", "r1"), ("q2", "r2"), ("q3", "r3")]) =
        joinSep "\n" ["User: " ++ "q1", "Assistant: " ++ "r1", "User: " ++ "q2",
          "Assistant: " ++ "r2", "User: " ++ "q3", "Assistant: " ++ "r3"]
      ∧ history_window [("q4", "r4")] = format_chat_history [("q4", "r4")]
      ∧ history_window ([] : List (String × String)) = "No previous conversation.") :=
  ⟨by decide,
    c3_history_window [("q0", "r0")] [("q4", "r4")] "q1" "r1" "q2" "r2" "q3" "r3" (by decide)⟩

/-- Claim C4, counterexample.  The claim characterises discards as: redirect
marker, or stripped length below 100, or more than 2 occurrences of a
navigation marker.  `cFourContent` has no redirect marker, stripped
length 150 (at least 100) and exactly one occurrence of
`"Skip to main content"` (at most 2), so the claim classifies it keep —
yet the code discards it, because it contains a navigation marker and
its raw length 150 is below 200. -/
theorem c4_counterexample :
    classify cFourContent = true
    ∧ containsStr cFourContent "Redirecting" = false
    ∧ 100 ≤ (stripStr cFourContent).length
    ∧ countOccur "Skip to main content".data cFourContent.data ≤ 2 := by
  decide

/-- Claim C4, amended: the quality filter discards a passage if and only if
its content contains the redirect marker `"Redirecting"`, or its
stripped length is below 100 characters, or it contains the navigation
marker `"Skip to main content"` at all (one occurrence suffices) while
its raw length is below 200 characters.  Discarded passages contribute
nothing to the curated context.  In particular the three-marker scenario
passage is discarded (its stripped length 62 is below 100 and it
contains the marker with length below 200). -/
theorem c4_quality_filter (content : String) (d : Doc) (rest : List Doc) (acc : List String)
    (hd : classify d.page_content = true) :
    (classify content = true ↔
      (containsStr content "Redirecting" = true
        ∨ (stripStr content).length < 100
        ∨ (containsStr content "Skip to main content" = true ∧ content.length < 200)))
    ∧ format_docs_go (d :: rest) acc = format_docs_go rest acc
    ∧ classify "Skip to main content Skip to main content Skip to main content" = true := by
  refine ⟨?_, ?_, by decide⟩
  · simp only [classify, Bool.or_eq_true, Bool.and_eq_true, decide_eq_true_eq]
    tauto
  · simp [format_docs_go, hd]

/-- Witness for claim C4 at a concrete discarded passage. -/
theorem c4_witness :
    classify "Redirecting now" = true
    ∧ ((classify "tiny" = true ↔
        (containsStr "tiny" "Redirecting" = true
          ∨ (stripStr "tiny").length < 100
          ∨ (containsStr "tiny" "Skip to main content" = true ∧ ("tiny" : String).length < 200)))
      ∧ format_docs_go [⟨none, none, "Redirecting now"⟩] [] = format_docs_go [] []
      ∧ classify "Skip to main content Skip to main content Skip to main content" = true) :=
  ⟨by decide, c4_quality_filter "tiny" ⟨none, none, "Redirecting now"⟩ [] [] (by decide)⟩

/-- Claim C5 (confirmed): for every ordered sequence of input passages the
curated context contains at most 5 labelled passages, the labelled
passages are joined with the distinct `"\n---\n"` separator, and when
zero passages survive the output is the fixed
`"No relevant documentation found in the knowledge base."` sentinel —
never the empty string. -/
theorem c5_context_curator_bounds (docs : List Doc) :
    (format_docs_go docs []).length ≤ 5
    ∧ format_docs docs ≠ ""
    ∧ ((format_docs_go docs [] = [] ∧ format_docs docs = noDocsSentinel)
       ∨ (format_docs_go docs [] ≠ []
          ∧ format_docs docs = joinSep "\n---\n" (format_docs_go docs []))) := by
  refine ⟨format_docs_go_length_le docs [] (by decide), ?_, ?_⟩
  · cases hgo : format_docs_go docs [] with
    | nil => simp [format_docs, hgo, noDocsSentinel]
    | cons x xs =>
      have hx : x ≠ "" := format_docs_go_ne_empty docs [] (by simp) x
        (by rw [hgo]; exact List.mem_cons_self x xs)
      simp only [format_docs, hgo, List.isEmpty_cons, if_false, Bool.false_eq_true]
      exact joinSep_ne_empty _ _ _ hx
  · cases hgo : format_docs_go docs [] with
    | nil => left; exact ⟨rfl, by simp [format_docs, hgo]⟩
    | cons x xs =>
      right
      refine ⟨by simp, ?_⟩
      simp [format_docs, hgo]

/-- Claim C6, counterexample.  `dC6` passes the quality filter and its
normalized content is exactly 50 characters long — the claim says a
surviving passage of normalized length 50 or more is labelled and
included, yet the code skips it (it requires strictly more than 50) and,
it being the only candidate, returns the empty-context sentinel. -/
theorem c6_counterexample :
    classify dC6.page_content = false
    ∧ (cleanContent dC6.page_content).length = 50
    ∧ format_docs [dC6] = noDocsSentinel := by
  decide

/-- Claim C6, amended: a passage that passes the quality filter is skipped
by the curator if and only if its normalized content is 50 characters or
shorter; every surviving passage whose normalized content is strictly
longer than 50 characters is labelled with its source and the 1-based
sequence number and included at the next free position (subject to the
5-passage cap). -/
theorem c6_curator_threshold (d : Doc) (rest : List Doc) (acc : List String)
    (hq : classify d.page_content = false) (hacc : acc.length < 5) :
    ((cleanContent d.page_content).length ≤ 50 →
      format_docs_go (d :: rest) acc = format_docs_go rest acc)
    ∧ (50 < (cleanContent d.page_content).length →
      (format_docs_go (d :: rest) acc)[acc.length]? =
        some (labelStr (acc.length + 1) (d.source_framework.getD "unknown")
          (cleanContent d.page_content))) := by
  constructor
  · intro hle
    have hc : ¬((cleanContent d.page_content).length > 50) := by omega
    simp only [format_docs_go, hq, Bool.false_eq_true, if_false, if_neg hc]
    rw [if_neg (by omega : ¬(acc.length ≥ 5))]
  · intro hgt
    have hc : (cleanContent d.page_content).length > 50 := hgt
    simp only [format_docs_go, hq, Bool.false_eq_true, if_false, if_pos hc]
    by_cases h5 : (acc ++ [labelStr (acc.length + 1) (d.source_framework.getD "unknown")
        (cleanContent d.page_content)]).length ≥ 5
    · rw [if_pos h5, List.getElem?_append_right (le_refl acc.length)]
      simp
    · rw [if_neg h5]
      obtain ⟨ext, hext⟩ := format_docs_go_prefix rest
        (acc ++ [labelStr (acc.length + 1) (d.source_framework.getD "unknown")
          (cleanContent d.page_content)])
      rw [hext, List.append_assoc, List.getElem?_append_right (le_refl acc.length)]
      simp

/-- Witness for claim C6 at a concrete passage whose normalized content is
120 characters long. -/
theorem c6_witness :
    classify (Doc.page_content ⟨some "langchain", none, cSixKeepContent⟩) = false
    ∧ (0 : Nat) < 5
    ∧ (50 < (cleanContent (Doc.page_content ⟨some "langchain", none, cSixKeepContent⟩)).length →
      (format_docs_go [⟨some "langchain", none, cSixKeepContent⟩] [])[(0 : Nat)]? =
        some (labelStr 1 "langchain" (cleanContent cSixKeepContent))) :=
  ⟨by decide, by decide,
    (c6_curator_threshold ⟨some "langchain", none, cSixKeepContent⟩ [] [] (by decide)
      (by decide)).2⟩

/-- Claim C7, counterexample.  The claim says the title is derived exactly
once and that recording any subsequent turn never alters the title
again.  But when the first user message is itself the sentinel string
`"New Chat"`, the derivation leaves the title equal to the sentinel, and
recording a second user message `"hello"` alters the title again — the
derivation is not exactly-once. -/
theorem c7_counterexample :
    ((add_message ⟨[⟨1, 7, "New Chat", 0, 0⟩], [], 1, 5⟩ 1 "user" "New Chat").map
        (fun r => r.1.convs.map Conv.title)) = some ["New Chat"]
    ∧ (((add_message ⟨[⟨1, 7, "New Chat", 0, 0⟩], [], 1, 5⟩ 1 "user" "New Chat").bind
        (fun r => add_message r.1 1 "user" "hello")).map
        (fun r => r.1.convs.map Conv.title)) = some ["hello"] :=
  ⟨rfl, rfl⟩

/-- Claim C7, amended: on the first user message recorded while the title
equals the sentinel `"New Chat"`, the title is set to the first 50
characters of that message, with the `"..."` truncation marker appended
if and only if the message exceeded 50 characters; provided that message
is not itself the string `"New Chat"`, the derived title differs from
the sentinel and recording any further turn on a conversation whose
title differs from the sentinel leaves the title unchanged (only
`updated_at` is stamped).  If the first user message is exactly
`"New Chat"`, the title stays the sentinel and a later user message
derives it again. -/
theorem c7_title_derivation
    (db db' db2 db2' : DB) (cid mid cid2 mid2 : Nat) (conv conv2 : Conv)
    (content role2 content2 : String)
    (hfind : db.convs.find? (fun c => c.id == cid) = some conv)
    (htitle : conv.title = "New Chat")
    (hne : content ≠ "New Chat")
    (hres : add_message db cid "user" content = some (db', mid))
    (hfind2 : db2.convs.find? (fun c => c.id == cid2) = some conv2)
    (htitle2 : conv2.title ≠ "New Chat")
    (hres2 : add_message db2 cid2 role2 content2 = some (db2', mid2)) :
    db'.convs.find? (fun c => c.id == cid) =
      some { conv with
        title := if content.length > 50 then takeStr 50 content ++ "..." else content,
        updated_at := db.now }
    ∧ (if content.length > 50 then takeStr 50 content ++ "..." else content) ≠ "New Chat"
    ∧ db2'.convs.find? (fun c => c.id == cid2) = some { conv2 with updated_at := db2.now } := by
  refine ⟨?_, ?_, ?_⟩
  · rw [add_message_some db cid "user" content conv hfind] at hres
    have hcond : (conv.title == "New Chat" && ("user" : String) == "user") = true := by
      simp [htitle]
    simp only [hcond, if_true] at hres
    injection hres with hres
    have hdb' : db' = { db with
        msgs := db.msgs ++ [⟨db.next_msg_id, cid, "user", content, db.now⟩],
        convs := db.convs.map (fun c =>
          if c.id == cid then
            { c with
              title := if content.length > 50 then takeStr 50 content ++ "..." else content,
              updated_at := db.now }
          else c),
        next_msg_id := db.next_msg_id + 1 } := (congrArg Prod.fst hres).symm
    rw [hdb']
    exact find?_map_update db.convs cid
      (fun c => { c with
        title := if content.length > 50 then takeStr 50 content ++ "..." else content,
        updated_at := db.now })
      (fun c => rfl) conv hfind
  · by_cases hlen : content.length > 50
    · rw [if_pos hlen]
      intro he
      have hlen2 := congrArg String.length he
      rw [String.length_append] at hlen2
      have ht : (takeStr 50 content).length = 50 := by
        show (content.data.take 50).length = 50
        rw [List.length_take]
        have hcl : content.length = content.data.length := rfl
        omega
      have h3 : ("..." : String).length = 3 := rfl
      have h8 : ("New Chat" : String).length = 8 := rfl
      rw [ht, h3, h8] at hlen2
      omega
    · rw [if_neg hlen]
      exact hne
  · rw [add_message_some db2 cid2 role2 content2 conv2 hfind2] at hres2
    have hcond : (conv2.title == "New Chat" && role2 == "user") = false := by
      have h : (conv2.title == "New Chat") = false := beq_eq_false_iff_ne.mpr htitle2
      simp [h]
    simp only [hcond, Bool.false_eq_true, if_false] at hres2
    injection hres2 with hres2
    have hdb2' : db2' = { db2 with
        msgs := db2.msgs ++ [⟨db2.next_msg_id, cid2, role2, content2, db2.now⟩],
        convs := db2.convs.map (fun c =>
          if c.id == cid2 then { c with title := conv2.title, updated_at := db2.now } else c),
        next_msg_id := db2.next_msg_id + 1 } := (congrArg Prod.fst hres2).symm
    rw [hdb2']
    exact find?_map_update db2.convs cid2
      (fun c => { c with title := conv2.title, updated_at := db2.now })
      (fun c => rfl) conv2 hfind2

/-- Witness for claim C7: the `"What is RAG?"` scenario followed by the
assistant answer, on concrete store states. -/
theorem c7_witness :
    (DB.convs ⟨[⟨1, 7, "New Chat", 0, 0⟩], [], 1, 5⟩).find? (fun c => c.id == 1) =
        some ⟨1, 7, "New Chat", 0, 0⟩
    ∧ (⟨1, 7, "New Chat", 0, 0⟩ : Conv).title = "New Chat"
    ∧ ("What is RAG?" : String) ≠ "New Chat"
    ∧ add_message ⟨[⟨1, 7, "New Chat", 0, 0⟩], [], 1, 5⟩ 1 "user" "What is RAG?" =
        some (⟨[⟨1, 7, "What is RAG?", 0, 5⟩], [⟨1, 1, "user", "What is RAG?", 5⟩], 2, 5⟩, 1)
    ∧ (DB.convs ⟨[⟨1, 7, "What is RAG?", 0, 5⟩], [⟨1, 1, "user", "What is RAG?", 5⟩], 2, 5⟩).find?
        (fun c => c.id == 1) = some ⟨1, 7, "What is RAG?", 0, 5⟩
    ∧ (⟨1, 7, "What is RAG?", 0, 5⟩ : Conv).title ≠ "New Chat"
    ∧ add_message ⟨[⟨1, 7, "What is RAG?", 0, 5⟩], [⟨1, 1, "user", "What is RAG?", 5⟩], 2, 5⟩
        1 "assistant" "RAG is retrieval augmented generation." =
        some (⟨[⟨1, 7, "What is RAG?", 0, 5⟩],
          [⟨1, 1, "user", "What is RAG?", 5⟩,
            ⟨2, 1, "assistant", "RAG is retrieval augmented generation.", 5⟩], 3, 5⟩, 2)
    ∧ ((DB.convs ⟨[⟨1, 7, "What is RAG?", 0, 5⟩], [⟨1, 1, "user", "What is RAG?", 5⟩], 2, 5⟩).find?
          (fun c => c.id == 1) =
        some ⟨1, 7,
          if ("What is RAG?" : String).length > 50 then takeStr 50 "What is RAG?" ++ "..."
          else "What is RAG?", 0, 5⟩
      ∧ (if ("What is RAG?" : String).length > 50 then takeStr 50 "What is RAG?" ++ "..."
          else "What is RAG?") ≠ "New Chat"
      ∧ (DB.convs ⟨[⟨1, 7, "What is RAG?", 0, 5⟩],
            [⟨1, 1, "user", "What is RAG?", 5⟩,
              ⟨2, 1, "assistant", "RAG is retrieval augmented generation.", 5⟩], 3, 5⟩).find?
          (fun c => c.id == 1) = some ⟨1, 7, "What is RAG?", 0, 5⟩) :=
  ⟨by decide, rfl, by decide, by decide, by decide, by decide, by decide,
    c7_title_derivation
      ⟨[⟨1, 7, "New Chat", 0, 0⟩], [], 1, 5⟩
      ⟨[⟨1, 7, "What is RAG?", 0, 5⟩], [⟨1, 1, "user", "What is RAG?", 5⟩], 2, 5⟩
      ⟨[⟨1, 7, "What is RAG?", 0, 5⟩], [⟨1, 1, "user", "What is RAG?", 5⟩], 2, 5⟩
      ⟨[⟨1, 7, "What is RAG?", 0, 5⟩],
        [⟨1, 1, "user", "What is RAG?", 5⟩,
          ⟨2, 1, "assistant", "RAG is retrieval augmented generation.", 5⟩], 3, 5⟩
      1 1 1 2 ⟨1, 7, "New Chat", 0, 0⟩ ⟨1, 7, "What is RAG?", 0, 5⟩
      "What is RAG?" "assistant" "RAG is retrieval augmented generation."
      (by decide) rfl (by decide) (by decide) (by decide) (by decide) (by decide)⟩

/-- Claim C8 (confirmed): the prompt template decomposes uniquely into the
four fixed slots in order — system instructions (`promptPre`, which
contains the `INSTRUCTIONS` block), then the `{context}` slot, then the
`{chat_history}` slot, then the `{question}` slot — each of the three
placeholders occurs exactly once in the template, and the assembler is
pure string substitution of the three values into those slots. -/
theorem c8_prompt_template :
    RAG_PROMPT_TEMPLATE =
      promptPre ++ "{context}" ++ promptMid1 ++ "{chat_history}" ++ promptMid2 ++ "{question}"
        ++ promptPost
    ∧ countOccur "{context}".data RAG_PROMPT_TEMPLATE.data = 1
    ∧ countOccur "{chat_history}".data RAG_PROMPT_TEMPLATE.data = 1
    ∧ countOccur "{question}".data RAG_PROMPT_TEMPLATE.data = 1
    ∧ containsStr promptPre "INSTRUCTIONS" = true
    ∧ (∀ context chat_history question : String,
        assemble context chat_history question =
          promptPre ++ context ++ promptMid1 ++ chat_history ++ promptMid2 ++ question
            ++ promptPost) :=
  ⟨rfl, by decide, by decide, by decide, by decide, fun _ _ _ => rfl⟩

/-- Claim C9 (confirmed): for every url list (and every outcome of the
per-url loads), each successfully loaded document occurs in the list
returned by `load_documents_from_urls` exactly twice as often as in a
single-append loader — the loader doubles every loaded document, so a
source document contributes two sets of chunks to the splitter input;
the repeated `split_documents` call itself is result-neutral (the second
identical call overwrites the first). -/
theorem c9_double_load (fetch : String → Option (List Doc)) (urls : List String)
    (source_name : String) (splitter : List Doc → List Doc) (documents : List Doc) (d : Doc) :
    List.count d (load_documents_from_urls fetch urls source_name) =
      2 * List.count d (load_documents_once fetch urls source_name)
    ∧ split_documents splitter documents = splitter documents := by
  refine ⟨?_, rfl⟩
  have h1 : load_documents_from_urls fetch urls source_name =
      urls.flatMap
        (fun url => loadContrib fetch source_name url ++ loadContrib fetch source_name url) := by
    rw [show load_documents_from_urls fetch urls source_name = _ from
      load_documents_from_urls_eq fetch source_name urls []]
    rfl
  have h2 : load_documents_once fetch urls source_name =
      urls.flatMap (fun url => loadContrib fetch source_name url) := by
    rw [show load_documents_once fetch urls source_name = _ from
      load_documents_once_eq fetch source_name urls []]
    rfl
  rw [h1, h2, count_flatMap_double]

/-- Claim C10 (confirmed): an `add_message` call whose role is
`"assistant"`, or whose target conversation already carries a title
different from the sentinel `"New Chat"`, leaves the title unchanged:
it only appends the new message row, bumps the message id counter and
stamps the target conversation's `updated_at`; every conversation with a
different id is untouched and the set of conversation ids is
preserved. -/
theorem c10_frame (db db' : DB) (cid mid : Nat) (conv : Conv) (role content : String)
    (hfind : db.convs.find? (fun c => c.id == cid) = some conv)
    (hcase : role = "assistant" ∨ conv.title ≠ "New Chat")
    (hres : add_message db cid role content = some (db', mid)) :
    db'.msgs = db.msgs ++ [⟨db.next_msg_id, cid, role, content, db.now⟩]
    ∧ mid = db.next_msg_id
    ∧ db'.next_msg_id = db.next_msg_id + 1
    ∧ db'.now = db.now
    ∧ db'.convs.find? (fun c => c.id == cid) = some { conv with updated_at := db.now }
    ∧ db'.convs.filter (fun c => !(c.id == cid)) = db.convs.filter (fun c => !(c.id == cid))
    ∧ db'.convs.map (fun c => c.id) = db.convs.map (fun c => c.id) := by
  rw [add_message_some db cid role content conv hfind] at hres
  have hcond : (conv.title == "New Chat" && role == "user") = false := by
    rcases hcase with hrole | htit
    · subst hrole
      simp
    · have h : (conv.title == "New Chat") = false := beq_eq_false_iff_ne.mpr htit
      simp [h]
  simp only [hcond, Bool.false_eq_true, if_false] at hres
  injection hres with hres
  have hdb' : db' = { db with
      msgs := db.msgs ++ [⟨db.next_msg_id, cid, role, content, db.now⟩],
      convs := db.convs.map (fun c =>
        if c.id == cid then { c with title := conv.title, updated_at := db.now } else c),
      next_msg_id := db.next_msg_id + 1 } := (congrArg Prod.fst hres).symm
  have hmid : mid = db.next_msg_id := (congrArg Prod.snd hres).symm
  subst hdb'
  refine ⟨rfl, hmid, rfl, rfl, ?_, ?_, ?_⟩
  · exact find?_map_update db.convs cid
      (fun c => { c with title := conv.title, updated_at := db.now }) (fun c => rfl) conv hfind
  · exact filter_map_update db.convs cid
      (fun c => { c with title := conv.title, updated_at := db.now }) (fun c => rfl)
  · exact map_ids_update db.convs cid
      (fun c => { c with title := conv.title, updated_at := db.now }) (fun c => rfl)

/-- Witness for claim C10 at a concrete store state with an assistant
message. -/
theorem c10_witness :
    (DB.convs ⟨[⟨1, 4, "My title", 0, 2⟩, ⟨2, 4, "New Chat", 0, 3⟩], [⟨1, 1, "user", "q", 1⟩],
        2, 9⟩).find? (fun c => c.id == 1) = some ⟨1, 4, "My title", 0, 2⟩
    ∧ (("assistant" : String) = "assistant" ∨ (⟨1, 4, "My title", 0, 2⟩ : Conv).title ≠ "New Chat")
    ∧ add_message ⟨[⟨1, 4, "My title", 0, 2⟩, ⟨2, 4, "New Chat", 0, 3⟩],
        [⟨1, 1, "user", "q", 1⟩], 2, 9⟩ 1 "assistant" "the answer" =
        some (⟨[⟨1, 4, "My title", 0, 9⟩, ⟨2, 4, "New Chat", 0, 3⟩],
          [⟨1, 1, "user", "q", 1⟩, ⟨2, 1, "assistant", "the answer", 9⟩], 3, 9⟩, 2)
    ∧ ((DB.msgs ⟨[⟨1, 4, "My title", 0, 9⟩, ⟨2, 4, "New Chat", 0, 3⟩],
          [⟨1, 1, "user", "q", 1⟩, ⟨2, 1, "assistant", "the answer", 9⟩], 3, 9⟩) =
        DB.msgs ⟨[⟨1, 4, "My title", 0, 2⟩, ⟨2, 4, "New Chat", 0, 3⟩], [⟨1, 1, "user", "q", 1⟩],
          2, 9⟩ ++ [⟨2, 1, "assistant", "the answer", 9⟩]
      ∧ (2 : Nat) = 2
      ∧ (DB.next_msg_id ⟨[⟨1, 4, "My title", 0, 9⟩, ⟨2, 4, "New Chat", 0, 3⟩],
          [⟨1, 1, "user", "q", 1⟩, ⟨2, 1, "assistant", "the answer", 9⟩], 3, 9⟩) = 2 + 1
      ∧ (DB.now ⟨[⟨1, 4, "My title", 0, 9⟩, ⟨2, 4, "New Chat", 0, 3⟩],
          [⟨1, 1, "user", "q", 1⟩, ⟨2, 1, "assistant", "the answer", 9⟩], 3, 9⟩) = 9
      ∧ (DB.convs ⟨[⟨1, 4, "My title", 0, 9⟩, ⟨2, 4, "New Chat", 0, 3⟩],
          [⟨1, 1, "user", "q", 1⟩, ⟨2, 1, "assistant", "the answer", 9⟩], 3, 9⟩).find?
          (fun c => c.id == 1) = some ⟨1, 4, "My title", 0, 9⟩
      ∧ (DB.convs ⟨[⟨1, 4, "My title", 0, 9⟩, ⟨2, 4, "New Chat", 0, 3⟩],
          [⟨1, 1, "user", "q", 1⟩, ⟨2, 1, "assistant", "the answer", 9⟩], 3, 9⟩).filter
          (fun c => !(c.id == 1)) =
        (DB.convs ⟨[⟨1, 4, "My title", 0, 2⟩, ⟨2, 4, "New Chat", 0, 3⟩],
          [⟨1, 1, "user", "q", 1⟩], 2, 9⟩).filter (fun c => !(c.id == 1))
      ∧ (DB.convs ⟨[⟨1, 4, "My title", 0, 9⟩, ⟨2, 4, "New Chat", 0, 3⟩],
          [⟨1, 1, "user", "q", 1⟩, ⟨2, 1, "assistant", "the answer", 9⟩], 3, 9⟩).map
          (fun c => c.id) =
        (DB.convs ⟨[⟨1, 4, "My title", 0, 2⟩, ⟨2, 4, "New Chat", 0, 3⟩],
          [⟨1, 1, "user", "q", 1⟩], 2, 9⟩).map (fun c => c.id)) :=
  ⟨by decide, Or.inl rfl, by decide,
    c10_frame
      ⟨[⟨1, 4, "My title", 0, 2⟩, ⟨2, 4, "New Chat", 0, 3⟩], [⟨1, 1, "user", "q", 1⟩], 2, 9⟩
      ⟨[⟨1, 4, "My title", 0, 9⟩, ⟨2, 4, "New Chat", 0, 3⟩],
        [⟨1, 1, "user", "q", 1⟩, ⟨2, 1, "assistant", "the answer", 9⟩], 3, 9⟩
      1 2 ⟨1, 4, "My title", 0, 2⟩ "assistant" "the answer"
      (by decide) (Or.inl rfl) (by decide)⟩

end Chatbot
